import Mathlib

/-!
Verification development for the provider IP-range pipeline
(`src/scripts/fetch.py`): format adapters, the normalize step, the chunk
partitioner, and the per-provider orchestrator `fetch_provider`, embedded
shallowly as executable Lean definitions.  External collaborators of the
script (the network fetch, the Python standard library `json.loads`,
`ipaddress.ip_network` and the `str` methods) are modelled explicitly where
a claim depends on them; filesystem writes are modelled as an explicit list
of file-write records returned by each operation.
-/

namespace Fetch

/-- Constant from the source: `CHUNK_SIZE = 2000`. -/
def CHUNK_SIZE : Nat := 2000

/-- Constant from the source: `CHUNKS_DIR = Path('lists/chunks')`. -/
def CHUNKS_DIR : String := "lists/chunks"

/-! ## Models of the Python `str` methods used by the script

The script uses `split` (on a one-character separator and on whitespace),
`strip`, `startswith`, membership of a character, and decimal parsing.
These are modelled on the underlying character list by structural
recursion. -/

/-- Split a character list at every character satisfying `P`, keeping empty
pieces, as Python `str.split(sep)` does for a one-character separator. -/
def splitOnPChar (P : Char → Bool) : List Char → List (List Char)
  | [] => [[]]
  | c :: cs =>
    match splitOnPChar P cs with
    | [] => [[c]]
    | h :: t => if P c then [] :: h :: t else (c :: h) :: t

/-- Modelled from the Python standard library: `s.split(sep)` for a
one-character separator `sep` (every occurrence splits; empty pieces are
kept). -/
def pySplitChar (sep : Char) (s : String) : List String :=
  (splitOnPChar (fun c => c == sep) s.data).map String.mk

/-- Modelled from the Python standard library: `s.split()` with no
argument — split on whitespace runs, discarding empty pieces. -/
def pySplit (s : String) : List String :=
  ((splitOnPChar Char.isWhitespace s.data).filter (fun t => !t.isEmpty)).map String.mk

/-- Modelled from the Python standard library: `s.strip()` — remove leading
and trailing whitespace. -/
def pyStrip (s : String) : String :=
  String.mk (((s.data.dropWhile Char.isWhitespace).reverse.dropWhile
    Char.isWhitespace).reverse)

/-- Modelled from the Python standard library: `s.startswith(pre)`. -/
def pyStartsWith (s pre : String) : Bool :=
  pre.data.isPrefixOf s.data

/-- Modelled from the Python standard library: `c in s` for a character. -/
def pyContains (s : String) (c : Char) : Bool :=
  s.data.contains c

/-- Value of a list of decimal digit characters. -/
def digitsToNat (l : List Char) : Nat :=
  l.foldl (fun a c => a * 10 + (c.toNat - 48)) 0

/-- Decimal natural-number reading of a string: defined exactly when the
string is nonempty and all digits. -/
def pyToNat (s : String) : Option Nat :=
  if !s.data.isEmpty && s.data.all Char.isDigit then some (digitsToNat s.data)
  else none

/-! ## Model of `json.loads` -/

/-- Modelled from the Python standard library: a JSON value as produced by
`json.loads`, restricted to the forms the AWS feed and the fixtures use
(objects, arrays, strings, integers, booleans, null; floating point is not
modelled). -/
inductive Json where
  | null : Json
  | bool (b : Bool) : Json
  | num (n : Int) : Json
  | str (s : String) : Json
  | arr (elems : List Json) : Json
  | obj (fields : List (String × Json)) : Json

/-- JSON insignificant whitespace. -/
def jsonWs (c : Char) : Bool :=
  c = ' ' || c = '\t' || c = '\n' || c = '\r'

/-- Drop leading JSON whitespace. -/
def skipWs (cs : List Char) : List Char :=
  cs.dropWhile jsonWs

/-- Scan a JSON string body up to the closing quote (escape sequences are not
modelled; none of the feeds or fixtures use them). -/
def scanStr : List Char → List Char → Option (String × List Char)
  | [], _ => none
  | '"' :: rest, acc => some (String.mk acc.reverse, rest)
  | '\\' :: _, _ => none
  | c :: rest, acc => scanStr rest (c :: acc)

/-- Digit run at the front of the input, as a natural number with the rest. -/
def scanNat (cs : List Char) : Option (Nat × List Char) :=
  let ds := cs.takeWhile Char.isDigit
  if ds.isEmpty then none
  else some (digitsToNat ds, cs.dropWhile Char.isDigit)

/-- Scan a JSON integer (optional leading minus). -/
def scanInt (cs : List Char) : Option (Int × List Char) :=
  match cs with
  | '-' :: rest => (scanNat rest).map (fun p => (-(p.1 : Int), p.2))
  | _ => (scanNat cs).map (fun p => ((p.1 : Int), p.2))

mutual

/-- Modelled from the Python standard library: recursive-descent JSON value
reader underlying `json.loads`, on a fuel budget. -/
def jsonVal (fuel : Nat) (cs : List Char) : Option (Json × List Char) :=
  match fuel with
  | 0 => none
  | fuel + 1 =>
    match skipWs cs with
    | 'n' :: 'u' :: 'l' :: 'l' :: rest => some (.null, rest)
    | 't' :: 'r' :: 'u' :: 'e' :: rest => some (.bool true, rest)
    | 'f' :: 'a' :: 'l' :: 's' :: 'e' :: rest => some (.bool false, rest)
    | '"' :: rest => (scanStr rest []).map (fun p => (.str p.1, p.2))
    | '[' :: rest =>
      match skipWs rest with
      | ']' :: r2 => some (.arr [], r2)
      | _ =>
        match jsonVal fuel rest with
        | some (v, r1) => (jsonArrRest fuel r1).map (fun p => (.arr (v :: p.1), p.2))
        | none => none
    | '\x7b' :: rest =>
      match skipWs rest with
      | '\x7d' :: r2 => some (.obj [], r2)
      | _ =>
        match jsonPair fuel rest with
        | some (kv, r1) => (jsonObjRest fuel r1).map (fun p => (.obj (kv :: p.1), p.2))
        | none => none
    | c :: rest =>
      if c.isDigit || c = '-' then (scanInt (c :: rest)).map (fun p => (.num p.1, p.2))
      else none
    | [] => none

/-- Remaining array elements after one parsed value: a comma and a value, or
the closing bracket. -/
def jsonArrRest (fuel : Nat) (cs : List Char) : Option (List Json × List Char) :=
  match fuel with
  | 0 => none
  | fuel + 1 =>
    match skipWs cs with
    | ']' :: rest => some ([], rest)
    | ',' :: rest =>
      match jsonVal fuel rest with
      | some (v, r1) => (jsonArrRest fuel r1).map (fun p => (v :: p.1, p.2))
      | none => none
    | _ => none

/-- One object member: a quoted key, a colon, and a value. -/
def jsonPair (fuel : Nat) (cs : List Char) : Option ((String × Json) × List Char) :=
  match fuel with
  | 0 => none
  | fuel + 1 =>
    match skipWs cs with
    | '"' :: rest =>
      match scanStr rest [] with
      | some (k, r1) =>
        match skipWs r1 with
        | ':' :: r2 => (jsonVal fuel r2).map (fun p => ((k, p.1), p.2))
        | _ => none
      | none => none
    | _ => none

/-- Remaining object members after one parsed pair: a comma and a pair, or
the closing brace. -/
def jsonObjRest (fuel : Nat) (cs : List Char) :
    Option (List (String × Json) × List Char) :=
  match fuel with
  | 0 => none
  | fuel + 1 =>
    match skipWs cs with
    | '\x7d' :: rest => some ([], rest)
    | ',' :: rest =>
      match jsonPair fuel rest with
      | some (kv, r1) => (jsonObjRest fuel r1).map (fun p => (kv :: p.1, p.2))
      | none => none
    | _ => none

end

/-- Modelled from the Python standard library: `json.loads`, returning `none`
exactly when the document is structurally malformed (raising
`json.JSONDecodeError` in Python). -/
def json_loads (s : String) : Option Json :=
  match jsonVal (s.length + 1) s.data with
  | some (v, rest) => if skipWs rest = [] then some v else none
  | none => none

/-! ## Model of `ipaddress.ip_network` -/

/-- Modelled from the Python standard library: one dotted-quad octet as
accepted by `ipaddress` — a nonempty run of decimal digits with value at
most 255 and no leading zero (unless the octet is exactly "0"). -/
def isOctet (s : String) : Bool :=
  match pyToNat s with
  | some v => decide (v ≤ 255) && (decide (s.length = 1) || !(pyStartsWith s "0"))
  | none => false

/-- Modelled from the Python standard library: a dotted-quad IPv4 address. -/
def isIPv4Addr (s : String) : Bool :=
  match pySplitChar '.' s with
  | [o1, o2, o3, o4] => isOctet o1 && isOctet o2 && isOctet o3 && isOctet o4
  | _ => false

/-- Modelled from the Python standard library: the check
`ipaddress.ip_network(s, strict=False)` succeeds and the result has
`version == 4`.  Accepts a dotted-quad address with an optional "/" followed
by a decimal prefix length at most 32; netmask-style suffixes and other
exotic stdlib forms are not modelled (no provider feed or fixture uses
them), and IPv6 forms are excluded by the dotted-quad shape. -/
def ip_network_v4 (s : String) : Bool :=
  match pySplitChar '/' s with
  | [addr] => isIPv4Addr addr
  | [addr, pfxLen] =>
    isIPv4Addr addr &&
      (match pyToNat pfxLen with
       | some p => decide (p ≤ 32)
       | none => false)
  | _ => false

/-! ## Format adapters -/

/-- Error kinds the orchestrator's `except` arms distinguish:
`urllib.error.URLError`, `json.JSONDecodeError`, and the generic
`Exception` arm. -/
inductive FetchError where
  | network : FetchError
  | decode : FetchError
  | process : FetchError
  deriving DecidableEq

/-- Extraction loop of `parse_aws_json` (lines 74-76): for every entry of
the prefix list that is an object carrying an `ip_prefix` string field, take
that string verbatim (no network-syntax validation). -/
def awsExtract (prefixes : List Json) : List String :=
  prefixes.filterMap fun p =>
    match p with
    | Json.obj pf =>
      match pf.lookup "ip_prefix" with
      | some (Json.str s) => some s
      | _ => none
    | _ => none

/-- Embedding of `parse_aws_json` (src/scripts/fetch.py lines 70-77):
`json.loads` the document, read `data.get('prefixes', [])`, and collect the
`ip_prefix` field of every entry that has one.  A structurally malformed
document is a decode error; a document whose top level is not an object, or
whose prefix list is not an array, raises in Python and is caught by the
generic arm (`process`). -/
def parse_aws_json (content : String) : Except FetchError (List String) :=
  match json_loads content with
  | none => Except.error FetchError.decode
  | some (Json.obj fields) =>
    match (fields.lookup "prefixes").getD (Json.arr []) with
    | Json.arr prefixes => Except.ok (awsExtract prefixes)
    | _ => Except.error FetchError.process
  | some _ => Except.error FetchError.process

/-- Embedding of `parse_digitalocean_csv` (lines 80-93): per stripped line,
skip blank and comment lines, take the first comma-delimited field, keep it
exactly when it contains a "/" character. -/
def parse_digitalocean_csv (content : String) : List String :=
  (pySplitChar '\n' (pyStrip content)).filterMap fun l =>
    let line := pyStrip l
    if (line == "") || pyStartsWith line "#" then none
    else
      let cidr := pyStrip ((pySplitChar ',' line).headD "")
      if pyContains cidr '/' then some cidr else none

/-- Embedding of `parse_linode_text` (lines 96-114): per stripped line, skip
blank and comment lines, take the first comma-delimited field, keep it
exactly when it is a syntactically valid IPv4 network. -/
def parse_linode_text (content : String) : List String :=
  (pySplitChar '\n' (pyStrip content)).filterMap fun l =>
    let line := pyStrip l
    if (line == "") || pyStartsWith line "#" then none
    else
      let cidr := pyStrip ((pySplitChar ',' line).headD "")
      if ip_network_v4 cidr then some cidr else none

/-- Loop body of `parse_tor_exit` (lines 121-127): a line contributes an
entry exactly when it begins with the marker "ExitAddress " and has at least
two whitespace-separated tokens; the second token is taken verbatim with
"/32" appended. -/
def torExitLine (line : String) : Option String :=
  if pyStartsWith line "ExitAddress " then
    match pySplit line with
    | _ :: ip :: _ => some (ip ++ "/32")
    | _ => none
  else none

/-- Embedding of `parse_tor_exit` (lines 117-128): keep exactly the lines
beginning with the marker "ExitAddress ", take the second
whitespace-separated token as a bare address, and append "/32". -/
def parse_tor_exit (content : String) : List String :=
  (pySplitChar '\n' content).filterMap torExitLine

/-- Loop body of `parse_vultr_text` (lines 134-144): strip the line, skip it
when blank or "#"-prefixed, keep it exactly when `ipaddress` accepts it as
an IPv4 network; a validation failure drops the line silently. -/
def vultrLine (l : String) : Option String :=
  let line := pyStrip l
  if (line == "") || pyStartsWith line "#" then none
  else if ip_network_v4 line then some line else none

/-- Embedding of `parse_vultr_text` (lines 131-145): per stripped line, skip
blank and comment lines, keep the line exactly when it is a syntactically
valid IPv4 network; every other line is silently dropped. -/
def parse_vultr_text (content : String) : List String :=
  (pySplitChar '\n' (pyStrip content)).filterMap vultrLine

/-- Embedding of `parse_plain_text` (lines 148-150), which the source defines
as a call to `parse_vultr_text` ("Same logic"). -/
def parse_plain_text (content : String) : List String :=
  parse_vultr_text content

/-- Adapter kinds of the `PARSERS` table (lines 153-160). -/
inductive ParserKind where
  | aws_json : ParserKind
  | digitalocean_csv : ParserKind
  | linode_text : ParserKind
  | tor_exit : ParserKind
  | vultr_text : ParserKind
  | plain_text : ParserKind
  deriving DecidableEq

/-- Dispatch through the `PARSERS` table: run the adapter of the given kind
on fetched text.  Only the AWS adapter can fail (decode error); the others
are total. -/
def runAdapter : ParserKind → String → Except FetchError (List String)
  | ParserKind.aws_json, c => parse_aws_json c
  | ParserKind.digitalocean_csv, c => Except.ok (parse_digitalocean_csv c)
  | ParserKind.linode_text, c => Except.ok (parse_linode_text c)
  | ParserKind.tor_exit, c => Except.ok (parse_tor_exit c)
  | ParserKind.vultr_text, c => Except.ok (parse_vultr_text c)
  | ParserKind.plain_text, c => Except.ok (parse_plain_text c)

/-- One entry of the provider registry (lines 18-49). -/
structure ProviderConfig where
  url : String
  parserKind : ParserKind
  output : String
  deriving DecidableEq

/-- The fixed provider registry `PROVIDERS` (lines 18-49). -/
def PROVIDERS : List (String × ProviderConfig) :=
  [("aws", ⟨"https://ip-ranges.amazonaws.com/ip-ranges.json",
            ParserKind.aws_json, "lists/providers/aws.txt"⟩),
   ("digitalocean", ⟨"https://www.digitalocean.com/geo/google.csv",
            ParserKind.digitalocean_csv, "lists/providers/digitalocean.txt"⟩),
   ("linode", ⟨"https://geoip.linode.com/",
            ParserKind.linode_text, "lists/providers/linode.txt"⟩),
   ("tor", ⟨"https://check.torproject.org/exit-addresses",
            ParserKind.tor_exit, "lists/providers/tor-exit-nodes.txt"⟩),
   ("vultr", ⟨"https://geofeed.constant.com/?text",
            ParserKind.vultr_text, "lists/providers/vultr.txt"⟩),
   ("vpn", ⟨"https://raw.githubusercontent.com/X4BNet/lists_vpn/main/output/vpn/ipv4.txt",
            ParserKind.plain_text, "lists/providers/vpn.txt"⟩)]

/-! ## Chunk partitioner -/

/-- Zero padding of Python's format `f"{n:03d}"` for a natural number. -/
def pad3 (n : Nat) : String :=
  if n < 10 then "00" ++ toString n
  else if n < 100 then "0" ++ toString n
  else toString n

/-- Chunk file basename `f"{provider_name}-part-{chunk_num:03d}.txt"`
(lines 171 and 187). -/
def chunkFileName (provider : String) (n : Nat) : String :=
  provider ++ "-part-" ++ pad3 n ++ ".txt"

/-- One chunk as planned by `write_chunks`: its basename and its ordered
entries. -/
structure Chunk where
  name : String
  entries : List String
  deriving DecidableEq

/-- One filesystem write: target path and the lines written (each line is
terminated by a newline in the file). -/
structure FileWrite where
  path : String
  lines : List String
  deriving DecidableEq

/-- Full path of a chunk file: `CHUNKS_DIR / provider_name / basename`. -/
def chunkPath (provider : String) (c : Chunk) : String :=
  CHUNKS_DIR ++ "/" ++ provider ++ "/" ++ c.name

/-- Python `range(start, stop, step)` over naturals with a positive step. -/
def pyRange (start stop step : Nat) : List Nat :=
  if h : 0 < step ∧ start < stop then
    start :: pyRange (start + step) stop step
  else []
termination_by stop - start
decreasing_by omega

/-- Chunk plan of `write_chunks` (lines 163-199): a sequence of length at
most `CHUNK_SIZE` is one chunk numbered 1 holding the whole sequence;
otherwise the loop `for i in range(0, len(cidrs), CHUNK_SIZE)` slices
`cidrs[i:i + CHUNK_SIZE]` into chunk `i // CHUNK_SIZE + 1`. -/
def chunkPlan (cidrs : List String) (provider : String) : List Chunk :=
  if cidrs.length ≤ CHUNK_SIZE then
    [⟨chunkFileName provider 1, cidrs⟩]
  else
    (pyRange 0 cidrs.length CHUNK_SIZE).map fun i =>
      ⟨chunkFileName provider (i / CHUNK_SIZE + 1), (cidrs.drop i).take CHUNK_SIZE⟩

/-- Observable outcome of `write_chunks`: the planned chunks (reported in
both modes), the filesystem writes actually performed, and the returned
chunk-file count. -/
structure ChunkResult where
  plan : List Chunk
  writes : List FileWrite
  count : Nat
  deriving DecidableEq

/-- Embedding of `write_chunks` (lines 163-199): computes the chunk plan,
performs one file write per chunk unless `dry_run` is set, and returns the
number of chunk files. -/
def write_chunks (cidrs : List String) (provider : String) (dryRun : Bool) :
    ChunkResult :=
  let plan := chunkPlan cidrs provider
  { plan := plan
    writes := if dryRun then [] else plan.map fun c => ⟨chunkPath provider c, c.entries⟩
    count := plan.length }

/-- Per-chunk sizes of a `write_chunks` outcome, as reported in the
"{n} CIDRs" messages printed for every chunk in both modes. -/
def ChunkResult.sizes (r : ChunkResult) : List Nat :=
  r.plan.map fun c => c.entries.length

/-! ## Normalizer and orchestrator -/

/-- Kernel-computable decision procedure for the lexicographic order on
strings, through the characterwise order on the underlying lists; used so
that concrete runs of the normalizer can be checked by evaluation. -/
instance (priority := 2000) decStrLe : DecidableRel (fun a b : String => a ≤ b) :=
  fun _ _ => decidable_of_iff _ String.le_iff_toList_le.symm

/-- Normalization step of `fetch_provider` (line 229):
`cidrs = sorted(set(cidrs))` — deduplicate by string value equality, then
sort ascending by the string's lexicographic order (Python string
comparison, which is `String.le`: characterwise comparison of the
underlying character lists). -/
def normalize (cidrs : List String) : List String :=
  cidrs.dedup.insertionSort (· ≤ ·)

/-- Observable outcome of `fetch_provider`: the returned
`(success, cidr_count)` pair, the filesystem writes performed, and the
per-chunk sizes reported by the chunking stage (empty when chunking is
skipped or never reached). -/
structure ProviderRun where
  success : Bool
  count : Nat
  writes : List FileWrite
  chunkSizes : List Nat
  deriving DecidableEq

/-- Embedding of `fetch_provider` (lines 202-255).  The external network
collaborator `fetch_url` is passed in as a function from URL to either a
network error or decoded text.  Unknown provider: immediate failure, no
fetch, no writes.  Fetch error, decode error, generic processing error, or
an empty parse result: failure, no writes.  Otherwise the normalized list is
written to the provider's canonical output path and, when `chunk` is set,
`write_chunks` runs; `dry_run` suppresses every write while the same counts
and chunk sizes are computed and reported. -/
def fetch_provider (fetchUrl : String → Except Unit String) (name : String)
    (dryRun : Bool) (chunk : Bool) : ProviderRun :=
  match PROVIDERS.lookup name with
  | none => ⟨false, 0, [], []⟩
  | some config =>
    match fetchUrl config.url with
    | Except.error _ => ⟨false, 0, [], []⟩
    | Except.ok content =>
      match runAdapter config.parserKind content with
      | Except.error _ => ⟨false, 0, [], []⟩
      | Except.ok rawCidrs =>
        if rawCidrs.isEmpty then ⟨false, 0, [], []⟩
        else
          let cidrs := normalize rawCidrs
          if dryRun then
            { success := true, count := cidrs.length, writes := []
              chunkSizes := if chunk then (write_chunks cidrs name true).sizes else [] }
          else
            { success := true, count := cidrs.length
              writes := ⟨config.output, cidrs⟩ ::
                (if chunk then (write_chunks cidrs name false).writes else [])
              chunkSizes := if chunk then (write_chunks cidrs name false).sizes else [] }

/-- Embedding of the per-provider loop of `main` (lines 306-314): fold
`fetch_provider` over the requested names, accumulating the success count,
the total CIDR count, and every write performed. -/
def runProviders (fetchUrl : String → Except Unit String) (names : List String)
    (dryRun : Bool) (chunk : Bool) : Nat × Nat × List FileWrite :=
  names.foldl
    (fun acc name =>
      let r := fetch_provider fetchUrl name dryRun chunk
      (acc.1 + (if r.success then 1 else 0),
       acc.2.1 + (if r.success then r.count else 0),
       acc.2.2 ++ r.writes))
    (0, 0, [])

/-! ## Helper lemmas -/

theorem pyRange2000_eq :
    ∀ (fuel start stop : Nat), stop - start ≤ fuel →
      pyRange start stop 2000 =
        (List.range ((stop - start + 1999) / 2000)).map (fun k => start + k * 2000) := by
  intro fuel
  induction fuel with
  | zero =>
    intro start stop hle
    unfold pyRange
    rw [dif_neg (by omega)]
    have h0 : (stop - start + 1999) / 2000 = 0 := by omega
    rw [h0, List.range_zero, List.map_nil]
  | succ fuel ih =>
    intro start stop hle
    by_cases hlt : start < stop
    · unfold pyRange
      rw [dif_pos ⟨by omega, hlt⟩, ih (start + 2000) stop (by omega)]
      have hm : (stop - start + 1999) / 2000 = (stop - (start + 2000) + 1999) / 2000 + 1 := by
        omega
      rw [hm, List.range_succ_eq_map, List.map_cons, List.map_map]
      refine congrArg₂ List.cons (by simp) ?_
      refine List.map_congr_left ?_
      intro k _
      show start + 2000 + k * 2000 = start + Nat.succ k * 2000
      omega
    · unfold pyRange
      rw [dif_neg (by omega)]
      have h0 : (stop - start + 1999) / 2000 = 0 := by omega
      rw [h0, List.range_zero, List.map_nil]

theorem chunkPlan_of_le {cidrs : List String} (p : String) (h : cidrs.length ≤ CHUNK_SIZE) :
    chunkPlan cidrs p = [⟨chunkFileName p 1, cidrs⟩] := by
  rw [chunkPlan, if_pos h]

theorem chunkPlan_of_gt {cidrs : List String} (p : String) (h : CHUNK_SIZE < cidrs.length) :
    chunkPlan cidrs p =
      (List.range ((cidrs.length + 1999) / 2000)).map
        (fun k => ⟨chunkFileName p (k + 1), (cidrs.drop (k * 2000)).take 2000⟩) := by
  rw [chunkPlan, if_neg (by omega)]
  simp only [CHUNK_SIZE]
  rw [pyRange2000_eq cidrs.length 0 cidrs.length (by omega), List.map_map]
  refine List.map_congr_left ?_
  intro k _
  show (⟨chunkFileName p ((0 + k * 2000) / 2000 + 1),
        (cidrs.drop (0 + k * 2000)).take 2000⟩ : Chunk) = _
  have h1 : 0 + k * 2000 = k * 2000 := by omega
  have h2 : k * 2000 / 2000 + 1 = k + 1 := by omega
  rw [h1, h2]

theorem chunkPlan_get (cidrs : List String) (p : String) (k : Nat)
    (hk : k < (chunkPlan cidrs p).length) :
    (chunkPlan cidrs p).get ⟨k, hk⟩ =
      ⟨chunkFileName p (k + 1), (cidrs.drop (k * 2000)).take 2000⟩ := by
  by_cases h : cidrs.length ≤ CHUNK_SIZE
  · have hp := chunkPlan_of_le p h
    have hlen : (chunkPlan cidrs p).length = 1 := by rw [hp]; rfl
    have hk0 : k = 0 := by omega
    subst hk0
    rw [List.get_eq_getElem]
    simp only [hp, List.getElem_cons_zero]
    have h2 : cidrs.length ≤ 2000 := h
    rw [Nat.zero_mul, List.drop_zero, List.take_of_length_le h2]
  · push_neg at h
    have hp := chunkPlan_of_gt p h
    rw [List.get_eq_getElem]
    simp only [hp, List.getElem_map, List.getElem_range]

theorem chunkPlan_length (cidrs : List String) (p : String) (h1 : 1 ≤ cidrs.length) :
    (chunkPlan cidrs p).length = (cidrs.length + 1999) / 2000 := by
  by_cases h : cidrs.length ≤ CHUNK_SIZE
  · rw [chunkPlan_of_le p h]
    have h2 : cidrs.length ≤ 2000 := h
    show 1 = (cidrs.length + 1999) / 2000
    omega
  · push_neg at h
    rw [chunkPlan_of_gt p h, List.length_map, List.length_range]

theorem normalize_nodup (X : List String) : (normalize X).Nodup :=
  (List.perm_insertionSort (· ≤ ·) X.dedup).symm.nodup (List.nodup_dedup X)

theorem normalize_sorted (X : List String) : (normalize X).Sorted (· ≤ ·) :=
  List.sorted_insertionSort (· ≤ ·) X.dedup

theorem mem_normalize {X : List String} {s : String} : s ∈ normalize X ↔ s ∈ X :=
  ((List.perm_insertionSort (· ≤ ·) X.dedup).mem_iff).trans List.mem_dedup

theorem normalize_idem (X : List String) : normalize (normalize X) = normalize X := by
  show (normalize X).dedup.insertionSort (· ≤ ·) = normalize X
  rw [List.dedup_eq_self.2 (normalize_nodup X)]
  exact (normalize_sorted X).insertionSort_eq

/-! ## Claim theorems -/

/-- C2: the normalization step `sorted(set(cidrs))` deduplicates by string
value equality (the output has no duplicates and exactly the input's
members), sorts ascending by lexicographic string comparison (`String.le`,
which is characterwise comparison of the underlying character lists), is
idempotent, and maps empty input to empty output. -/
theorem normalize_dedups_sorts_idempotent (X : List String) :
    (normalize X).Nodup ∧
    (normalize X).Sorted (· ≤ ·) ∧
    (normalize X).Pairwise (fun a b => a.toList ≤ b.toList) ∧
    (∀ s : String, s ∈ normalize X ↔ s ∈ X) ∧
    normalize (normalize X) = normalize X ∧
    normalize ([] : List String) = [] := by
  refine ⟨normalize_nodup X, normalize_sorted X, ?_, fun s => mem_normalize,
    normalize_idem X, rfl⟩
  exact List.Pairwise.imp (fun h => String.le_iff_toList_le.mp h) (normalize_sorted X)

/-- C10: the plain-text adapter and the geofeed-text adapter are
extensionally equal — `parse_plain_text` returns exactly what
`parse_vultr_text` returns on every input string (the source defines the
former as a call to the latter). -/
theorem plain_text_equals_vultr_text (content : String) :
    parse_plain_text content = parse_vultr_text content := rfl

/-- C5: the exit-node adapter keeps exactly the lines beginning with the
marker "ExitAddress ", takes the second whitespace-separated token verbatim
(no validation, as the non-address instance shows) and appends "/32"; on the
fixture with the two marker lines `ExitAddress 1.2.3.4 9001` and
`ExitAddress 5.6.7.8 9001` it yields `["1.2.3.4/32", "5.6.7.8/32"]`. -/
theorem tor_exit_adapter :
    parse_tor_exit
        "ExitNode ABC\nPublished 2024-01-01\nLastStatus 2024-01-01\nExitAddress 1.2.3.4 9001\nExitAddress 5.6.7.8 9001"
      = ["1.2.3.4/32", "5.6.7.8/32"] ∧
    parse_tor_exit "ExitAddress not.an.ip 9001" = ["not.an.ip/32"] ∧
    (∀ line : String, pyStartsWith line "ExitAddress " = false → torExitLine line = none) ∧
    (∀ content : String,
      parse_tor_exit content = (pySplitChar '\n' content).filterMap torExitLine) := by
  refine ⟨by decide, by decide, ?_, fun _ => rfl⟩
  intro line h
  simp [torExitLine, h]

/-- C5 witness: the per-line selection rule applied at a concrete non-marker
line. -/
theorem tor_exit_adapter_witness : torExitLine "Published 2024-01-01" = none :=
  tor_exit_adapter.2.2.1 "Published 2024-01-01" (by decide)

/-- C6: the plain-CIDR adapter maps the fixture with an invalid line and a
comment line to exactly the two valid networks, and in general every output
entry is a nonblank, non-comment line that passed the IPv4-network syntax
check; the adapter is a total function, so no input aborts the parse. -/
theorem plain_cidr_adapter :
    parse_plain_text "10.0.0.0/24\nnot-a-network\n#comment\n10.0.1.0/24"
      = ["10.0.0.0/24", "10.0.1.0/24"] ∧
    ∀ (content s : String), s ∈ parse_plain_text content →
      ip_network_v4 s = true ∧ s ≠ "" ∧ pyStartsWith s "#" = false := by
  refine ⟨by decide, ?_⟩
  intro content s hs
  obtain ⟨a, _, hfa⟩ := List.mem_filterMap.mp hs
  simp only [vultrLine] at hfa
  by_cases h1 : ((pyStrip a == "") || pyStartsWith (pyStrip a) "#") = true
  · rw [if_pos h1] at hfa
    exact absurd hfa (by simp)
  · rw [if_neg h1] at hfa
    by_cases h2 : ip_network_v4 (pyStrip a) = true
    · rw [if_pos h2] at hfa
      obtain rfl : pyStrip a = s := Option.some.inj hfa
      simp only [Bool.or_eq_true, not_or, beq_iff_eq, Bool.not_eq_true] at h1
      exact ⟨h2, h1.1, h1.2⟩
    · rw [if_neg h2] at hfa
      exact absurd hfa (by simp)

/-- C6 witness: the general output characterization applied at the fixture
and its first output entry. -/
theorem plain_cidr_adapter_witness :
    ("10.0.0.0/24" ∈ parse_plain_text "10.0.0.0/24\nnot-a-network\n#comment\n10.0.1.0/24") ∧
    (ip_network_v4 "10.0.0.0/24" = true ∧ "10.0.0.0/24" ≠ "" ∧
      pyStartsWith "10.0.0.0/24" "#" = false) :=
  ⟨by decide,
   plain_cidr_adapter.2 "10.0.0.0/24\nnot-a-network\n#comment\n10.0.1.0/24"
     "10.0.0.0/24" (by decide)⟩

/-- JSON-prefix-list fixture from the spec:
`{"prefixes":[{"ip_prefix":"10.0.0.0/8"},{"ip_prefix":"10.0.0.0/8"},{"ip_prefix":"172.16.0.0/12"}]}`. -/
def awsFixture : String :=
  "\x7b\"prefixes\":[\x7b\"ip_prefix\":\"10.0.0.0/8\"\x7d,\x7b\"ip_prefix\":\"10.0.0.0/8\"\x7d,\x7b\"ip_prefix\":\"172.16.0.0/12\"\x7d]\x7d"

/-- Fetch collaborator that answers the AWS URL with a structurally
malformed JSON document and every other URL with one plain CIDR line. -/
def awsBadFetch : String → Except Unit String := fun url =>
  if url = "https://ip-ranges.amazonaws.com/ip-ranges.json" then
    Except.ok "this is not json"
  else Except.ok "10.0.0.0/8"

/-- C4: the JSON-prefix-list adapter extracts the `ip_prefix` field of every
prefix entry carrying it, with no network-syntax validation (an arbitrary
string value is taken verbatim); the spec fixture normalizes to exactly
`["10.0.0.0/8", "172.16.0.0/12"]`; a structurally malformed document fails
the whole parse with a decode error, and in a two-provider run that failure
is confined to the offending provider: the other provider still succeeds and
only its files are written. -/
theorem aws_json_adapter :
    parse_aws_json awsFixture = Except.ok ["10.0.0.0/8", "10.0.0.0/8", "172.16.0.0/12"] ∧
    normalize ["10.0.0.0/8", "10.0.0.0/8", "172.16.0.0/12"]
      = ["10.0.0.0/8", "172.16.0.0/12"] ∧
    (∀ s : String, awsExtract [Json.obj [("ip_prefix", Json.str s)]] = [s]) ∧
    parse_aws_json "this is not json" = Except.error FetchError.decode ∧
    runProviders awsBadFetch ["aws", "vpn"] false true =
      (1, 1, [⟨"lists/providers/vpn.txt", ["10.0.0.0/8"]⟩,
              ⟨"lists/chunks/vpn/vpn-part-001.txt", ["10.0.0.0/8"]⟩]) := by
  exact ⟨by rfl, by decide, fun s => rfl, by rfl, by decide⟩

/-- C1 counterexample: on the empty input `write_chunks` produces one chunk
file, not `ceil(0 / 2000) = 0` of them, so the partition law as stated fails
at length 0. -/
theorem chunk_partition_law_counterexample :
    (chunkPlan ([] : List String) "aws").length = 1 ∧
    (write_chunks ([] : List String) "aws" false).count = 1 ∧
    ((List.length ([] : List String)) + CHUNK_SIZE - 1) / CHUNK_SIZE = 0 := by
  refine ⟨rfl, rfl, by decide⟩

/-- C1 (amended to nonempty input): for every nonempty list of CIDR strings
of length n, `write_chunks` partitions it into exactly `ceil(n / 2000)`
chunks; chunk N (1-indexed, named through `chunkFileName`) holds exactly the
entries at positions `[(N-1)*2000, N*2000)` of the input in input order;
every chunk but the last has length exactly 2000 and the last has length
`n mod 2000` (or 2000 when n is a positive exact multiple of 2000). -/
theorem chunk_partition_law (cidrs : List String) (p : String) (h : 1 ≤ cidrs.length) :
    (chunkPlan cidrs p).length = (cidrs.length + CHUNK_SIZE - 1) / CHUNK_SIZE ∧
    (∀ d : Bool, (write_chunks cidrs p d).count = (chunkPlan cidrs p).length ∧
        (write_chunks cidrs p d).plan = chunkPlan cidrs p) ∧
    (∀ (k : Nat) (hk : k < (chunkPlan cidrs p).length),
        (chunkPlan cidrs p).get ⟨k, hk⟩ =
          ⟨chunkFileName p (k + 1), (cidrs.drop (k * CHUNK_SIZE)).take CHUNK_SIZE⟩) ∧
    (∀ (k : Nat) (hk : k < (chunkPlan cidrs p).length),
        k + 1 ≠ (chunkPlan cidrs p).length →
        ((chunkPlan cidrs p).get ⟨k, hk⟩).entries.length = CHUNK_SIZE) ∧
    (∀ (k : Nat) (hk : k < (chunkPlan cidrs p).length),
        k + 1 = (chunkPlan cidrs p).length →
        ((chunkPlan cidrs p).get ⟨k, hk⟩).entries.length =
          if cidrs.length % CHUNK_SIZE = 0 then CHUNK_SIZE
          else cidrs.length % CHUNK_SIZE) := by
  have hlen := chunkPlan_length cidrs p h
  refine ⟨?_, fun d => ⟨rfl, rfl⟩, ?_, ?_, ?_⟩
  · rw [hlen]
    simp only [CHUNK_SIZE]
    omega
  · intro k hk
    exact chunkPlan_get cidrs p k hk
  · intro k hk hne
    rw [chunkPlan_get cidrs p k hk]
    simp only [List.length_take, List.length_drop]
    rw [hlen] at hk hne
    simp only [CHUNK_SIZE]
    omega
  · intro k hk hlast
    rw [chunkPlan_get cidrs p k hk]
    simp only [List.length_take, List.length_drop]
    rw [hlen] at hk hlast
    simp only [CHUNK_SIZE]
    split_ifs with hmod
    · omega
    · omega

/-- C1 witness: the amended law applied at a concrete three-entry input. -/
theorem chunk_partition_law_witness :
    1 ≤ (["10.0.0.0/8", "10.0.1.0/24", "192.168.0.0/16"] : List String).length ∧
    (chunkPlan ["10.0.0.0/8", "10.0.1.0/24", "192.168.0.0/16"] "aws").length =
      ((["10.0.0.0/8", "10.0.1.0/24", "192.168.0.0/16"] : List String).length +
        CHUNK_SIZE - 1) / CHUNK_SIZE :=
  ⟨by decide,
   (chunk_partition_law ["10.0.0.0/8", "10.0.1.0/24", "192.168.0.0/16"] "aws"
     (by decide)).1⟩

/-- C3: an input of length at most 2000 (length 0 included) yields exactly
one chunk, numbered 1, holding the whole input; and for every input the
chunk at position k is named `chunkFileName p (k+1)`, the provider-named
file `<provider>-part-<NNN>.txt` with the number zero-padded to width 3
starting at "001". -/
theorem single_chunk_and_naming (cidrs : List String) (p : String)
    (h : cidrs.length ≤ CHUNK_SIZE) :
    chunkPlan cidrs p = [⟨chunkFileName p 1, cidrs⟩] ∧
    (∀ d : Bool, (write_chunks cidrs p d).count = 1) ∧
    chunkFileName p 1 = p ++ "-part-001.txt" ∧
    ∀ (ys : List String) (k : Nat) (hk : k < (chunkPlan ys p).length),
      ((chunkPlan ys p).get ⟨k, hk⟩).name = chunkFileName p (k + 1) := by
  refine ⟨chunkPlan_of_le p h, ?_, ?_, ?_⟩
  · intro d
    show (chunkPlan cidrs p).length = 1
    rw [chunkPlan_of_le p h]
    rfl
  · show p ++ "-part-" ++ pad3 1 ++ ".txt" = p ++ "-part-001.txt"
    rw [String.append_assoc, String.append_assoc]
    exact congrArg (fun t => p ++ t) (by decide)
  · intro ys k hk
    rw [chunkPlan_get ys p k hk]

/-- C3 witness: the single-chunk law applied at a concrete one-entry
input. -/
theorem single_chunk_and_naming_witness :
    (["1.2.3.4/32"] : List String).length ≤ CHUNK_SIZE ∧
    chunkPlan ["1.2.3.4/32"] "tor" = [⟨chunkFileName "tor" 1, ["1.2.3.4/32"]⟩] ∧
    chunkFileName "tor" 1 = "tor" ++ "-part-001.txt" :=
  ⟨by decide,
   (single_chunk_and_naming ["1.2.3.4/32"] "tor" (by decide)).1,
   (single_chunk_and_naming ["1.2.3.4/32"] "tor" (by decide)).2.2.1⟩

/-- C7: when the adapter parse succeeds with zero entries, the provider is
reported failed with count 0 and nothing is written, in dry-run and live
mode alike. -/
theorem empty_result_fails (f : String → Except Unit String) (name : String)
    (config : ProviderConfig) (content : String)
    (h1 : PROVIDERS.lookup name = some config)
    (h2 : f config.url = Except.ok content)
    (h3 : runAdapter config.parserKind content = Except.ok [])
    (dryRun chunk : Bool) :
    fetch_provider f name dryRun chunk = ⟨false, 0, [], []⟩ := by
  simp [fetch_provider, h1, h2, h3]

/-- C7 witness: an empty plain-text document for the vpn provider fails with
no writes in both modes. -/
theorem empty_result_fails_witness :
    PROVIDERS.lookup "vpn" = some ⟨"https://raw.githubusercontent.com/X4BNet/lists_vpn/main/output/vpn/ipv4.txt",
      ParserKind.plain_text, "lists/providers/vpn.txt"⟩ ∧
    runAdapter ParserKind.plain_text "" = Except.ok [] ∧
    fetch_provider (fun _ => Except.ok "") "vpn" true true = ⟨false, 0, [], []⟩ ∧
    fetch_provider (fun _ => Except.ok "") "vpn" false true = ⟨false, 0, [], []⟩ :=
  ⟨by decide, by rfl,
   empty_result_fails (fun _ => Except.ok "") "vpn"
     ⟨"https://raw.githubusercontent.com/X4BNet/lists_vpn/main/output/vpn/ipv4.txt",
      ParserKind.plain_text, "lists/providers/vpn.txt"⟩ "" (by decide) rfl (by rfl)
     true true,
   empty_result_fails (fun _ => Except.ok "") "vpn"
     ⟨"https://raw.githubusercontent.com/X4BNet/lists_vpn/main/output/vpn/ipv4.txt",
      ParserKind.plain_text, "lists/providers/vpn.txt"⟩ "" (by decide) rfl (by rfl)
     false true⟩

/-- C8: a provider identifier outside the fixed registry fails immediately —
the result does not depend on the fetch collaborator at all (so no fetch is
made) and nothing is written. -/
theorem unknown_provider_fails (name : String) (h : PROVIDERS.lookup name = none) :
    ∀ (f g : String → Except Unit String) (dryRun chunk : Bool),
      fetch_provider f name dryRun chunk = ⟨false, 0, [], []⟩ ∧
      fetch_provider f name dryRun chunk = fetch_provider g name dryRun chunk := by
  intro f g dryRun chunk
  constructor <;> simp [fetch_provider, h]

/-- C8 witness: the unknown identifier "cloudflare" with two fetch
collaborators that differ everywhere. -/
theorem unknown_provider_fails_witness :
    PROVIDERS.lookup "cloudflare" = none ∧
    fetch_provider (fun _ => Except.ok "10.0.0.0/8") "cloudflare" false true
      = ⟨false, 0, [], []⟩ ∧
    fetch_provider (fun _ => Except.ok "10.0.0.0/8") "cloudflare" false true
      = fetch_provider (fun _ => Except.error ()) "cloudflare" false true :=
  ⟨by decide,
   (unknown_provider_fails "cloudflare" (by decide)
     (fun _ => Except.ok "10.0.0.0/8") (fun _ => Except.error ()) false true).1,
   (unknown_provider_fails "cloudflare" (by decide)
     (fun _ => Except.ok "10.0.0.0/8") (fun _ => Except.error ()) false true).2⟩

/-- C9: a dry run performs no filesystem write whatever the outcome, while
returning the same success flag and CIDR count and reporting the same
per-chunk partition sizes as a live run on identical input. -/
theorem dry_run_frame (f : String → Except Unit String) (name : String) (chunk : Bool) :
    (fetch_provider f name true chunk).writes = [] ∧
    (fetch_provider f name true chunk).success = (fetch_provider f name false chunk).success ∧
    (fetch_provider f name true chunk).count = (fetch_provider f name false chunk).count ∧
    (fetch_provider f name true chunk).chunkSizes
      = (fetch_provider f name false chunk).chunkSizes := by
  cases hl : PROVIDERS.lookup name with
  | none => simp [fetch_provider, hl]
  | some config =>
    cases hf : f config.url with
    | error e => simp [fetch_provider, hl, hf]
    | ok content =>
      cases hp : runAdapter config.parserKind content with
      | error e => simp [fetch_provider, hl, hf, hp]
      | ok cidrs =>
        by_cases he : cidrs.isEmpty = true
        · simp [fetch_provider, hl, hf, hp, he]
        · simp [fetch_provider, hl, hf, hp, he, write_chunks, ChunkResult.sizes]

end Fetch
